import Mathlib

/-!
Verification of the simulation cores of the workbench mini-games:
the traffic-light driving simulator (kinematic variant in
src/unnamed/part_000, rigid-body variant in
src/apps/web/src/app/boardgames/TrafficGame.tsx) and the endless
runner (RunnerScene in src/unnamed/part_000).

JavaScript numbers are modelled as exact rationals (discrete game
state) or as real numbers (the kinematic car physics, which uses
square roots and trigonometry).  Mutation is modelled by explicit
state passing.
-/

namespace TrafficGame

/-- Traffic light colors, the `"green" | "yellow" | "red"` union used by
both driving games. -/
inductive Light where
  | green
  | yellow
  | red
deriving DecidableEq

/-- Round status, the `"playing" | "passed" | "failed"` union used by
both driving games. -/
inductive Status where
  | playing
  | passed
  | failed
deriving DecidableEq

/-- The React component state shared by both driving games:
`lightState`, `status`, `score`, the `stoppedRef.current.crossed`
flag, and the `paused` flag. -/
structure GameState where
  light : Light
  status : Status
  score : ℕ
  crossed : Bool
  paused : Bool
deriving DecidableEq

/-- `onCrossStopLine` (part_000 lines 821-824 and TrafficGame.tsx lines
385-392, identical logic): if the light is red the status becomes
`failed`; otherwise the score is incremented and the status becomes
`passed`.  The current status is not consulted. -/
def onCrossStopLine (s : GameState) : GameState :=
  if s.light = Light.red then { s with status := Status.failed }
  else { s with score := s.score + 1, status := Status.passed }

/-- The crossed-flag guard run each frame with the car's (new) z
position (part_000 lines 661-664, TrafficGame.tsx lines 107-110): when
the flag is unset and z is negative, the flag is set and
`onCrossStopLine` runs; otherwise nothing happens. -/
def crossTick (s : GameState) (nz : ℚ) : GameState :=
  if s.crossed = false ∧ nz < 0 then onCrossStopLine { s with crossed := true }
  else s

/-- `onBarrierHit` of the kinematic game (part_000 lines 826-828): sets
`failed` only when the status is still `playing`. -/
def onBarrierHitKin (s : GameState) : GameState :=
  if s.status = Status.playing then { s with status := Status.failed } else s

/-- `onBarrierHit` of the rigid-body game (TrafficGame.tsx lines
394-399): sets `failed` unconditionally (the sound and hit-effect side
effects do not touch the game state modelled here). -/
def onBarrierHitRigid (s : GameState) : GameState :=
  { s with status := Status.failed }

/-- The `P` key handler in both games: `setPaused(v => !v)`.  It touches
no other state. -/
def togglePause (s : GameState) : GameState :=
  { s with paused := !s.paused }

/-- Successor of a light phase in the `cycle` loop of both games
(part_000 lines 766-782, TrafficGame.tsx lines 214-230):
green to yellow to red to green. -/
def nextLight : Light → Light
  | Light.green => Light.yellow
  | Light.yellow => Light.red
  | Light.red => Light.green

/-- `LIGHT_DURATIONS` (part_000 line 579, TrafficGame.tsx line 10):
dwell time of each phase in milliseconds. -/
def LIGHT_DURATIONS : Light → ℕ
  | Light.green => 6000
  | Light.yellow => 1500
  | Light.red => 5000

/-- The infinite phase sequence produced by the `while (mounted)` cycle
loop, which starts at green and never terminates on its own. -/
def lightTrace : ℕ → Light
  | 0 => Light.green
  | n + 1 => nextLight (lightTrace n)

/-- Kinematic car state: mesh position `(x, z)`, the physics ref
`{ vx, vz, angle }` (part_000 line 610), and the mesh `rotation.y`. -/
structure CarState where
  x : ℝ
  z : ℝ
  vx : ℝ
  vz : ℝ
  angle : ℝ
  rotY : ℝ

/-- `reset` of the kinematic game (part_000 lines 830-840): clears the
crossed flag, restores `playing`, and puts the mesh back at the spawn
pose `position.set(0, 0.3, 18)`, `rotation.set(0, 0, 0)`.  The velocity
branch `if (el?.__physics) { ... }` reads the property `__physics` of
the car group, which no code in the file ever assigns, so the physics
ref `{ vx, vz, angle }` is left untouched. -/
def resetKin (t : GameState) (c : CarState) : GameState × CarState :=
  ({ t with crossed := false, status := Status.playing },
   { c with x := 0, z := 18, rotY := 0 })

/-- Rigid-body car state: translation, linear velocity and angular
velocity of the rapier body. -/
structure RigidCar where
  px : ℚ
  py : ℚ
  pz : ℚ
  vx : ℚ
  vy : ℚ
  vz : ℚ
  wx : ℚ
  wy : ℚ
  wz : ℚ
deriving DecidableEq

/-- `reset` of the rigid-body game (TrafficGame.tsx lines 401-414):
clears the crossed flag, restores `playing`, teleports the body to
`{ x: 0, y: 0.4, z: 18 }` and zeroes both velocities. -/
def resetRigid (t : GameState) (_b : RigidCar) : GameState × RigidCar :=
  ({ t with crossed := false, status := Status.playing },
   ⟨0, 2/5, 18, 0, 0, 0, 0, 0, 0⟩)

end TrafficGame

namespace RunnerScene

/-- A dragon entity: x position and the `health` data value
(part_000 lines 355-363, spawned with health 3). -/
structure Dragon where
  x : ℚ
  health : ℕ
deriving DecidableEq

/-- The value of a JavaScript numeric expression read off a sprite
property: a plain number, `NaN`, or `undefined` (a property that was
never assigned).  `undefined` and `NaN` are both falsy, both fail
every `<=` comparison, and subtracting a number from either gives
`NaN`. -/
inductive JSNum where
  | undef
  | nan
  | num (q : ℚ)
deriving DecidableEq

/-- The RunnerScene instance fields that the simulation mutates
(part_000 lines 16-23): `score`, `level`, `gameActive`, the timers
(modelled as activity flags), the paused state of the arcade physics,
and the entity groups.  Obstacles are their x positions; dust and
fire particles are the value of the plain sprite property `life` that
the update loop reads (part_000 lines 217 and 232) — which is distinct
from the DataManager slot written by `setData("life", ...)`. -/
structure SceneState where
  score : ℚ
  level : ℤ
  gameActive : Bool
  dragonTimerOn : Bool
  spawnTimerOn : Bool
  physicsPaused : Bool
  obstacles : List ℚ
  dragons : List Dragon
  particles : List JSNum
  fires : List JSNum
deriving DecidableEq

/-- The scene at first construction: class-field initializers
(part_000 lines 16-23) plus the `create` assignments. -/
def initState : SceneState :=
  ⟨0, 1, true, false, true, false, [], [], [], []⟩

/-- The `life` property of a freshly spawned dust or fire particle:
`createDustParticles` (part_000 line 449) and `spawnFire` (part_000
line 402) call `setData("life", ...)`, which writes Phaser's
DataManager, never the plain property `particle.life` that the update
loop reads (contrast `getData("health")` in `damageDragon`), so the
property is `undefined`. -/
def spawnedLife : JSNum := JSNum.undef

/-- Per-tick step of one dust particle (part_000 lines 214-226): the
truthiness guard `if (particle.life)` skips a particle whose `life`
property is `undefined`, `NaN` or exactly 0; on a number the life
drops by `delta / 1000` and the particle is destroyed when the result
is at most 0. -/
def dustStep (delta : ℚ) : JSNum → Option JSNum
  | JSNum.num q =>
    if q = 0 then some (JSNum.num q)
    else if q - delta / 1000 ≤ 0 then none
    else some (JSNum.num (q - delta / 1000))
  | l => some l

/-- Per-tick step of one fire particle (part_000 lines 229-239):
`fire.life -= delta / 1000` runs unconditionally — on `undefined` or
`NaN` the result is `NaN` — and the particle is destroyed only when
`life <= 0` holds afterwards, which `NaN` never satisfies. -/
def fireStep (delta : ℚ) : JSNum → Option JSNum
  | JSNum.num q =>
    if q - delta / 1000 ≤ 0 then none
    else some (JSNum.num (q - delta / 1000))
  | _ => some JSNum.nan

/-- The level-transition block of `update` (part_000 lines 171-183):
when the recomputed level differs from the stored one and equals 2
while the dragon spawn timer has never been armed, `spawnDragon` runs
once (a dragon with health 3 at x = width + 150 = 1050) and the
repeating dragon timer is armed.  Returns the dragon list and the
timer flag after the block. -/
def dragonsAfterSpawn (s : SceneState) (lvl : ℤ) : List Dragon × Bool :=
  if lvl ≠ s.level ∧ lvl = 2 ∧ s.dragonTimerOn = false then
    (s.dragons ++ [⟨1050, 3⟩], true)
  else (s.dragons, s.dragonTimerOn)

/-- `RunnerScene.update` (part_000 lines 163-240).  When `gameActive`
is false nothing happens.  Otherwise: the score grows by
`delta * 0.01`, the level is recomputed as `floor(score / 250) + 1`,
the level-2 transition may spawn a dragon, obstacles move left by
`(300 + (level - 1) * 30) * (delta / 1000)` and are destroyed past
x < -100, dragons move left by `(250 + (level - 1) * 20) *
(delta / 1000)` and are destroyed past x < -150, and particle
lifetimes tick down via `dustStep` / `fireStep`. -/
def update (s : SceneState) (delta : ℚ) : SceneState :=
  if s.gameActive = false then s
  else
    let score := s.score + delta * (1 / 100)
    let lvl := ⌊score / 250⌋ + 1
    let spawned := dragonsAfterSpawn s lvl
    { s with
      score := score
      level := lvl
      dragonTimerOn := spawned.2
      obstacles :=
        (s.obstacles.map (fun x => x - (300 + ((lvl - 1 : ℤ) : ℚ) * 30) * (delta / 1000))).filter
          (fun x => decide (¬ x < -100))
      dragons :=
        (spawned.1.map
            (fun dr => Dragon.mk (dr.x - (250 + ((lvl - 1 : ℤ) : ℚ) * 20) * (delta / 1000)) dr.health)).filter
          (fun dr => decide (¬ dr.x < -150))
      particles := s.particles.filterMap (dustStep delta)
      fires := s.fires.filterMap (fireStep delta) }

/-- Result of one player-dragon overlap resolution: the surviving
dragon (`none` when destroyed), the score bonus, and how many
dust-particle bursts (`createDustParticles` calls) were emitted. -/
structure StompResult where
  dragon : Option Dragon
  bonus : ℚ
  bursts : ℕ
deriving DecidableEq

/-- `damageDragon` (part_000 lines 408-430).  `vy` is the player's
vertical velocity; in Phaser the y axis points down, so descending
means `vy > 0` and the guard `velocity.y <= 0` rejects everything
else.  `getData("health") || 3` treats a (unreachable) zero health as
3.  A lethal stomp destroys the dragon, adds 50 to the score and emits
four dust bursts; a non-lethal stomp stores `health - 1`, knocks the
dragon 30 units left and emits one dust burst. -/
def damageDragon (vy : ℚ) (d : Dragon) : StompResult :=
  if vy ≤ 0 then ⟨some d, 0, 0⟩
  else
    let h : ℕ := if d.health = 0 then 3 else d.health
    if h - 1 = 0 then ⟨none, 50, 4⟩
    else ⟨some ⟨d.x - 30, h - 1⟩, 0, 1⟩

/-- `gameOver` (part_000 lines 454-514), state part: `gameActive`
becomes false, the spawn timer is removed, the arcade physics is
paused.  (Highscore persistence is modelled separately.) -/
def gameOver (s : SceneState) : SceneState :=
  { s with gameActive := false, spawnTimerOn := false, physicsPaused := true }

/-- The field assignments performed by `create` (part_000 lines
29-161): fresh empty entity groups, a fresh repeating spawn timer, and
a running physics world.  `create` never assigns `score`, `level`,
`gameActive`, `dragonSpawnTimer` or `dragonFireTimer`; those are only
set by the class-field initializers, which run at construction. -/
def create (s : SceneState) : SceneState :=
  { s with
    obstacles := []
    dragons := []
    particles := []
    fires := []
    spawnTimerOn := true
    physicsPaused := false }

/-- The `keydown-R` handler (part_000 lines 511-513) calls
`this.scene.restart()`.  Phaser's documented `Scene.restart` shuts the
scene down and runs `create` again on the same scene object; the
class-field initializers of lines 16-23 run only in the constructor,
so instance fields survive the restart. -/
def restart (s : SceneState) : SceneState := create s

/-- A scene that just hit game over with score 120, one live obstacle
and one live dust particle: the input for evaluating the restart
behaviour of claim C7. -/
def overState : SceneState :=
  gameOver { initState with score := 120, obstacles := [300], particles := [spawnedLife] }

/-- An active scene holding one freshly spawned dust particle and one
freshly spawned fire particle: the failing input for the particle
decay of claim C2. -/
def particleState : SceneState :=
  { initState with particles := [spawnedLife], fires := [spawnedLife] }

/-- JavaScript `parseInt` on the digit run: the leading decimal-digit
prefix of the characters; `none` models `NaN` (no digit at all). -/
def parseNatPrefix (cs : List Char) : Option ℕ :=
  if (cs.takeWhile Char.isDigit).isEmpty then none
  else some ((cs.takeWhile Char.isDigit).foldl (fun a c => a * 10 + (c.toNat - 48)) 0)

/-- Sign handling of JavaScript `parseInt` after whitespace was
skipped: an optional sign, then the leading digit run; `none` models
`NaN`. -/
def jsParseIntAux : List Char → Option ℤ
  | [] => none
  | c :: rest =>
    if c = '-' then (parseNatPrefix rest).map (fun n => -(n : ℤ))
    else if c = '+' then (parseNatPrefix rest).map (fun n => (n : ℤ))
    else (parseNatPrefix (c :: rest)).map (fun n => (n : ℤ))

/-- JavaScript `parseInt(s)` restricted to decimal notation: skip
leading spaces, read an optional sign, then the leading digit run;
`none` models `NaN`. -/
def jsParseInt (s : String) : Option ℤ :=
  jsParseIntAux (s.data.dropWhile (fun c => c = ' '))

/-- `localStorage.getItem("barrelJumpHighscore") || "0"` (part_000
lines 145 and 461): an absent key or an empty string falls back to
the string `"0"`; any other stored string is used as is. -/
def lsGet (store : Option String) : String :=
  match store with
  | none => "0"
  | some s => if s = "" then "0" else s

/-- The highscore read `parseInt(localStorage.getItem(...) || "0")`. -/
def readHighscore (store : Option String) : Option ℤ :=
  jsParseInt (lsGet store)

/-- The decimal digit character for a value below ten. -/
def digitChar (d : ℕ) : Char := Char.ofNat (48 + d)

/-- JavaScript `String(n)` for a natural number: its decimal digits,
most significant first. -/
def natToChars (n : ℕ) : List Char :=
  if n = 0 then [Char.ofNat 48] else ((Nat.digits 10 n).map digitChar).reverse

/-- JavaScript `String(n)` for a natural number, as a string. -/
def natToStr (n : ℕ) : String := ⟨natToChars n⟩

/-- The highscore persistence in `gameOver` (part_000 lines 460-466):
read the stored highscore, and write `String(currentScore)` exactly
when `currentScore > highscore`.  A `NaN` read (`none`) makes the
comparison false, so the store is left alone. -/
def persistHighscore (current : ℕ) (store : Option String) : Option String :=
  match readHighscore store with
  | some h => if (current : ℤ) > h then some (natToStr current) else store
  | none => store

end RunnerScene

namespace TrafficGame

/-- The held-key snapshot `window._trafficKeys` sampled each frame. -/
structure Keys where
  up : Bool
  down : Bool
  left : Bool
  right : Bool

/-- No key held. -/
def noKeys : Keys := ⟨false, false, false, false⟩

/-- `Math.sqrt(vx * vx + vz * vz)`, the scalar speed used by the
kinematic car frame (part_000 lines 620 and 641). -/
noncomputable def speedOf (vx vz : ℝ) : ℝ := Real.sqrt (vx * vx + vz * vz)

/-- `(keys.ArrowLeft ? 1 : 0) - (keys.ArrowRight ? 1 : 0)` (part_000
line 622). -/
def steerInput (k : Keys) : ℝ := (if k.left then 1 else 0) - (if k.right then 1 else 0)

/-- The steering block (part_000 lines 620-624): the heading changes
only when the scalar speed exceeds 0.2, by
`steer * min(speed * 0.4, 1.4) * d`. -/
noncomputable def angleAfter (s : CarState) (k : Keys) (d : ℝ) : ℝ :=
  if 0.2 < speedOf s.vx s.vz then
    s.angle + steerInput k * min (speedOf s.vx s.vz * 0.4) 1.4 * d
  else s.angle

/-- The velocity update from held keys (part_000 lines 626-638):
accelerate adds `18 * d` along the heading `(-sin a, -cos a)` computed
after steering; braking scales by `max(0, 1 - 12 * d)`; coasting
scales by `max(0, 1 - 3 * d)`. -/
noncomputable def velWork (s : CarState) (k : Keys) (d : ℝ) : ℝ × ℝ :=
  if k.up then
    (s.vx + -Real.sin (angleAfter s k d) * 18 * d,
     s.vz + -Real.cos (angleAfter s k d) * 18 * d)
  else if k.down then
    (s.vx * max 0 (1 - 12 * d), s.vz * max 0 (1 - 12 * d))
  else
    (s.vx * max 0 (1 - 3 * d), s.vz * max 0 (1 - 3 * d))

/-- The max-speed cap (part_000 lines 640-642): when the speed exceeds
14 the velocity is rescaled by `14 / spd` componentwise. -/
noncomputable def clampVel (v : ℝ × ℝ) : ℝ × ℝ :=
  if 14 < speedOf v.1 v.2 then
    (v.1 / speedOf v.1 v.2 * 14, v.2 / speedOf v.1 v.2 * 14)
  else v

/-- The integrated next position `(nx, nz)` of a frame (part_000 lines
644-646), using the capped `d = min(delta, 0.05)`. -/
noncomputable def nextXZ (s : CarState) (k : Keys) (delta : ℝ) : ℝ × ℝ :=
  (s.x + (clampVel (velWork s k (min delta 0.05))).1 * min delta 0.05,
   s.z + (clampVel (velWork s k (min delta 0.05))).2 * min delta 0.05)

/-- One kinematic `useFrame` tick (part_000 lines 612-659), physics
part.  When `|nx| > 4.5` the barrier branch fires: position and mesh
rotation stay as they were, both velocity components become 0, and the
(already mutated) physics angle is kept.  Otherwise the position
becomes `(nx, nz)`, the velocity the capped one, and the mesh rotation
tracks the angle. -/
noncomputable def carFrame (s : CarState) (k : Keys) (delta : ℝ) : CarState :=
  if 4.5 < |(nextXZ s k delta).1| then
    { s with vx := 0, vz := 0, angle := angleAfter s k (min delta 0.05) }
  else
    ⟨(nextXZ s k delta).1, (nextXZ s k delta).2,
     (clampVel (velWork s k (min delta 0.05))).1,
     (clampVel (velWork s k (min delta 0.05))).2,
     angleAfter s k (min delta 0.05), angleAfter s k (min delta 0.05)⟩

/-- The whole `useFrame` callback including its pause guard
(part_000 line 613): while paused the car state is untouched. -/
noncomputable def hostFrame (paused : Bool) (s : CarState) (k : Keys) (delta : ℝ) : CarState :=
  if paused then s else carFrame s k delta

/-- Iterated kinematic frames over a list of (keys, delta) inputs. -/
noncomputable def runFrames (s : CarState) (l : List (Keys × ℝ)) : CarState :=
  l.foldl (fun st p => carFrame st p.1 p.2) s

/-- The spawn pose of the kinematic car (part_000 line 668:
`position=[0, 0.3, 18]`, zero rotation, resting). -/
def spawnCar : CarState := ⟨0, 18, 0, 0, 0, 0⟩

end TrafficGame

open TrafficGame

/-- The per-tick behaviour of claim C2 that the source does implement
for an active runner scene at elapsed time `delta`: score
accumulation, level recomputation, and obstacle/dragon movement with
culling.  (The particle-decay part of claim C2 is the part the code
fails; it is settled by the remaining conjuncts of the claim's
theorem.) -/
def C2Prop (s : RunnerScene.SceneState) (delta : ℚ) : Prop :=
  (RunnerScene.update s delta).score = s.score + delta * (1 / 100) ∧
  (RunnerScene.update s delta).level = ⌊(s.score + delta * (1 / 100)) / 250⌋ + 1 ∧
  (RunnerScene.update s delta).obstacles =
    (s.obstacles.map
        (fun x => x - (300 + ((⌊(s.score + delta * (1 / 100)) / 250⌋ + 1 - 1 : ℤ) : ℚ) * 30) * (delta / 1000))).filter
      (fun x => decide (¬ x < -100)) ∧
  (RunnerScene.update s delta).dragons =
    (((RunnerScene.dragonsAfterSpawn s (⌊(s.score + delta * (1 / 100)) / 250⌋ + 1)).1).map
        (fun dr =>
          RunnerScene.Dragon.mk
            (dr.x - (250 + ((⌊(s.score + delta * (1 / 100)) / 250⌋ + 1 - 1 : ℤ) : ℚ) * 20) * (delta / 1000))
            dr.health)).filter
      (fun dr => decide (¬ dr.x < -150))

/-- The per-tick behaviour claimed by C9 for a kinematic frame that
does not hit the barrier: steering threshold and rate, the three
velocity laws, uniform rescaling with the 14 units/s cap, and position
integration by the capped delta. -/
def C9Prop (s : CarState) (k : Keys) (delta : ℝ) : Prop :=
  (speedOf s.vx s.vz ≤ 0.2 → (carFrame s k delta).angle = s.angle) ∧
  (0.2 < speedOf s.vx s.vz →
    (carFrame s k delta).angle =
      s.angle + steerInput k * min (speedOf s.vx s.vz * 0.4) 1.4 * min delta 0.05) ∧
  (k.up = true →
    velWork s k (min delta 0.05) =
      (s.vx + -Real.sin (carFrame s k delta).angle * 18 * min delta 0.05,
       s.vz + -Real.cos (carFrame s k delta).angle * 18 * min delta 0.05)) ∧
  (k.up = false → k.down = true →
    velWork s k (min delta 0.05) =
      (s.vx * max 0 (1 - 12 * min delta 0.05), s.vz * max 0 (1 - 12 * min delta 0.05))) ∧
  (k.up = false → k.down = false →
    velWork s k (min delta 0.05) =
      (s.vx * max 0 (1 - 3 * min delta 0.05), s.vz * max 0 (1 - 3 * min delta 0.05))) ∧
  (∃ c : ℝ, 0 < c ∧ c ≤ 1 ∧
    (carFrame s k delta).vx = c * (velWork s k (min delta 0.05)).1 ∧
    (carFrame s k delta).vz = c * (velWork s k (min delta 0.05)).2) ∧
  speedOf (carFrame s k delta).vx (carFrame s k delta).vz ≤ 14 ∧
  (carFrame s k delta).x = s.x + (carFrame s k delta).vx * min delta 0.05 ∧
  (carFrame s k delta).z = s.z + (carFrame s k delta).vz * min delta 0.05

/-- An inactive scene is not mutated by `update`. -/
lemma update_frozen (s : RunnerScene.SceneState) (delta : ℚ) (h : s.gameActive = false) :
    RunnerScene.update s delta = s := by
  simp [RunnerScene.update, h]

/-- Score, activity flag and level along the 1000 ms tick sequence of
the C2 scenario. -/
lemma update_ticks (n : ℕ) :
    ((fun st => RunnerScene.update st 1000)^[n] RunnerScene.initState).score = 10 * n ∧
    ((fun st => RunnerScene.update st 1000)^[n] RunnerScene.initState).gameActive = true ∧
    ((fun st => RunnerScene.update st 1000)^[n] RunnerScene.initState).level =
      ⌊(10 * n : ℚ) / 250⌋ + 1 := by
  induction n with
  | zero =>
      refine ⟨by simp [RunnerScene.initState], rfl, by simp [RunnerScene.initState]⟩
  | succ m ih =>
      rw [Function.iterate_succ_apply']
      set prev := (fun st => RunnerScene.update st 1000)^[m] RunnerScene.initState with hprev
      obtain ⟨hs, hg, hl⟩ := ih
      refine ⟨?_, ?_, ?_⟩
      · simp only [RunnerScene.update, hg]
        simp [hs]
        ring
      · simp only [RunnerScene.update, hg]
        simp
      · simp only [RunnerScene.update, hg]
        simp [hs]
        congr 1
        ring_nf

/-- Digit characters are digits. -/
lemma isDigit_digitChar {d : ℕ} (hd : d < 10) : (RunnerScene.digitChar d).isDigit = true := by
  interval_cases d <;> decide

/-- Code of a digit character. -/
lemma toNat_digitChar {d : ℕ} (hd : d < 10) : (RunnerScene.digitChar d).toNat = 48 + d := by
  interval_cases d <;> decide

/-- A digit character is neither a space nor a sign. -/
lemma isDigit_ne (c : Char) (h : c.isDigit = true) :
    ¬ (c = ' ') ∧ ¬ (c = '-') ∧ ¬ (c = '+') := by
  refine ⟨?_, ?_, ?_⟩ <;> intro he <;> subst he <;> exact absurd h (by decide)

/-- `takeWhile` keeps a list all of whose elements satisfy the
predicate. -/
lemma takeWhile_eq_self {p : Char → Bool} (l : List Char) (h : ∀ c ∈ l, p c = true) :
    l.takeWhile p = l := by
  induction l with
  | nil => rfl
  | cons a t ih =>
      simp [List.takeWhile_cons, h a (List.mem_cons_self a t),
        ih (fun c hc => h c (List.mem_cons_of_mem a hc))]

/-- Every character of a printed natural number is a digit. -/
lemma mem_natToChars_isDigit (n : ℕ) : ∀ c ∈ RunnerScene.natToChars n, c.isDigit = true := by
  intro c hc
  unfold RunnerScene.natToChars at hc
  by_cases h0 : n = 0
  · simp [h0] at hc
    subst hc
    decide
  · simp [h0, List.mem_reverse, List.mem_map] at hc
    rcases hc with ⟨d, hd, rfl⟩
    exact isDigit_digitChar (Nat.digits_lt_base (by norm_num) hd)

/-- A printed natural number is never the empty string. -/
lemma natToChars_ne_nil (n : ℕ) : RunnerScene.natToChars n ≠ [] := by
  unfold RunnerScene.natToChars
  by_cases h0 : n = 0
  · simp [h0]
  · simp [h0, Nat.digits_ne_nil_iff_ne_zero]

/-- Folding the digit-value step over printed digit characters equals
folding over the digits themselves. -/
lemma foldl_digitChar (ds : List ℕ) (h : ∀ d ∈ ds, d < 10) (acc : ℕ) :
    (ds.map RunnerScene.digitChar).foldl (fun a c => a * 10 + (c.toNat - 48)) acc =
      ds.foldl (fun a d => a * 10 + d) acc := by
  induction ds generalizing acc with
  | nil => rfl
  | cons d t ih =>
      have hd := h d (List.mem_cons_self d t)
      simp only [List.map_cons, List.foldl_cons, toNat_digitChar hd, Nat.add_sub_cancel_left]
      exact ih (fun x hx => h x (List.mem_cons_of_mem d hx)) _

/-- The multiply-and-add fold evaluates big-endian digit lists. -/
lemma foldl_mul_add (ds : List ℕ) (acc : ℕ) :
    ds.foldl (fun a d => a * 10 + d) acc = acc * 10 ^ ds.length + Nat.ofDigits 10 ds.reverse := by
  induction ds generalizing acc with
  | nil => simp
  | cons d t ih =>
      simp [List.foldl_cons, ih, List.reverse_cons, Nat.ofDigits_append, pow_succ,
        Nat.ofDigits_cons, Nat.ofDigits_nil]
      ring

/-- Parsing the digit run of a printed natural number recovers it. -/
lemma parseNatPrefix_natToChars (n : ℕ) :
    RunnerScene.parseNatPrefix (RunnerScene.natToChars n) = some n := by
  have hall := mem_natToChars_isDigit n
  have htake : (RunnerScene.natToChars n).takeWhile Char.isDigit = RunnerScene.natToChars n :=
    takeWhile_eq_self _ hall
  unfold RunnerScene.parseNatPrefix
  rw [htake, if_neg (by simpa [List.isEmpty_iff] using natToChars_ne_nil n)]
  congr 1
  by_cases h0 : n = 0
  · subst h0
    decide
  · unfold RunnerScene.natToChars
    rw [if_neg h0, ← List.map_reverse,
      foldl_digitChar _ (fun d hd => Nat.digits_lt_base (by norm_num) (List.mem_reverse.mp hd)) 0,
      foldl_mul_add]
    simp [Nat.ofDigits_digits]

/-- `parseInt(String(n))` round-trips for natural numbers. -/
lemma jsParseInt_natToStr (n : ℕ) :
    RunnerScene.jsParseInt (RunnerScene.natToStr n) = some (n : ℤ) := by
  unfold RunnerScene.jsParseInt RunnerScene.natToStr
  cases hl : RunnerScene.natToChars n with
  | nil => exact absurd hl (natToChars_ne_nil n)
  | cons c rest =>
      have hcdig : c.isDigit = true :=
        mem_natToChars_isDigit n c (hl ▸ List.mem_cons_self c rest)
      obtain ⟨hsp, hminus, hplus⟩ := isDigit_ne c hcdig
      dsimp only
      have hdrop : (c :: rest).dropWhile (fun x => decide (x = ' ')) = c :: rest := by
        simp [List.dropWhile_cons, hsp]
      rw [hdrop]
      simp only [RunnerScene.jsParseIntAux]
      rw [if_neg hminus, if_neg hplus, ← hl, parseNatPrefix_natToChars n]
      rfl

/-- Claim C1: in both driving modes, when the car's z position first
becomes negative in a round the crossed-flag is set and the crossing is
resolved exactly once: on red the status becomes failed with the score
unchanged, otherwise the status becomes passed and the score increases
by exactly 1; any further crossing before the next reset changes
neither score nor status (indeed nothing at all). -/
theorem c1_stop_line_crossing (s : GameState) (nz : ℚ) :
    (s.crossed = false → nz < 0 → s.light = Light.red →
      crossTick s nz = { s with crossed := true, status := Status.failed }) ∧
    (s.crossed = false → nz < 0 → s.light ≠ Light.red →
      crossTick s nz =
        { s with crossed := true, status := Status.passed, score := s.score + 1 }) ∧
    (s.crossed = true → crossTick s nz = s) := by
  refine ⟨?_, ?_, ?_⟩
  · intro hc hz hl
    simp [crossTick, onCrossStopLine, hc, hz, hl]
  · intro hc hz hl
    simp [crossTick, onCrossStopLine, hc, hz, hl]
  · intro hc
    simp [crossTick, hc]

/-- Witness for C1 at a concrete green-light first crossing. -/
theorem c1_stop_line_crossing_witness :
    ((false = false ∧ (-1 : ℚ) < 0 ∧ Light.green ≠ Light.red) ∧
      crossTick ⟨Light.green, Status.playing, 0, false, false⟩ (-1) =
        ⟨Light.green, Status.passed, 1, true, false⟩) :=
  ⟨⟨rfl, by norm_num, by decide⟩,
    (c1_stop_line_crossing ⟨Light.green, Status.playing, 0, false, false⟩ (-1)).2.1
      rfl (by norm_num) (by decide)⟩

/-- Claim C4: the traffic light follows exactly the cyclic sequence
green (6000 ms) to yellow (1500 ms) to red (5000 ms) and back to green,
forever, with no terminal state; toggling pause changes only the
`paused` flag (car physics gate), never the light fields or the round
state, and the phase sequence itself takes no pause input. -/
theorem c4_light_cycle :
    lightTrace 0 = Light.green ∧
    lightTrace 1 = Light.yellow ∧
    lightTrace 2 = Light.red ∧
    (∀ n, lightTrace (n + 3) = lightTrace n) ∧
    LIGHT_DURATIONS Light.green = 6000 ∧
    LIGHT_DURATIONS Light.yellow = 1500 ∧
    LIGHT_DURATIONS Light.red = 5000 ∧
    (∀ s : GameState,
      (togglePause s).light = s.light ∧
      (togglePause s).status = s.status ∧
      (togglePause s).score = s.score ∧
      (togglePause s).crossed = s.crossed ∧
      (togglePause s).paused = !s.paused) := by
  refine ⟨rfl, rfl, rfl, ?_, rfl, rfl, rfl, ?_⟩
  · intro n
    induction n with
    | zero => rfl
    | succ m ih =>
        show nextLight (lightTrace (m + 3)) = nextLight (lightTrace m)
        rw [ih]
  · intro s
    exact ⟨rfl, rfl, rfl, rfl, rfl⟩

/-- Counterexample for C5: in the rigid-body game a barrier collision
while the status is the terminal `passed` overwrites it with `failed`,
so the round status is not frozen after its first transition. -/
theorem c5_barrier_counterexample :
    onBarrierHitRigid ⟨Light.green, Status.passed, 1, true, false⟩ =
      ⟨Light.green, Status.failed, 1, true, false⟩ ∧
    Status.passed ≠ Status.failed := by
  exact ⟨rfl, by decide⟩

/-- Claim C5 (amended): a barrier collision never consults the light
color.  In kinematic mode it sets `failed` only from `playing` and
leaves a terminal status unchanged; in rigid-body mode it sets `failed`
from any status, so a terminal `passed` can be overwritten before
reset. -/
theorem c5_barrier_hit (s : GameState) :
    (s.status = Status.playing → onBarrierHitKin s = { s with status := Status.failed }) ∧
    (s.status ≠ Status.playing → onBarrierHitKin s = s) ∧
    onBarrierHitRigid s = { s with status := Status.failed } ∧
    (∀ l, (onBarrierHitKin { s with light := l }).status = (onBarrierHitKin s).status) ∧
    (∀ l, (onBarrierHitRigid { s with light := l }).status = (onBarrierHitRigid s).status) := by
  refine ⟨?_, ?_, rfl, ?_, ?_⟩
  · intro h
    simp [onBarrierHitKin, h]
  · intro h
    simp [onBarrierHitKin, h]
  · intro l
    by_cases h : s.status = Status.playing <;> simp [onBarrierHitKin, h]
  · intro l
    rfl

/-- Witness for C5 at a concrete barrier hit during `playing`. -/
theorem c5_barrier_hit_witness :
    (Status.playing = Status.playing ∧
      onBarrierHitKin ⟨Light.green, Status.playing, 0, false, false⟩ =
        ⟨Light.green, Status.failed, 0, false, false⟩) :=
  ⟨rfl, (c5_barrier_hit ⟨Light.green, Status.playing, 0, false, false⟩).1 rfl⟩

/-- Claim C2, evaluated against the code and at its failing input: an
active tick does add delta times 0.01 to the score, recompute the
level as floor(score / 250) + 1, and move obstacles and dragons left
at their level-scaled speeds with culling at -100 and -150; an
inactive scene is not mutated; and 25 ticks of 1000 ms from score 0
give exactly score 250 with the level moving from 1 to 2 on the
crossing tick.  But the particle-decay part of the claim fails: the
update loop reads the plain property `life`, which spawning never
assigns (it only calls `setData`), so a dust particle's `undefined`
life fails the truthiness guard and is neither decremented nor
destroyed, and a fire particle's life becomes `NaN`, which never
satisfies `life <= 0`, so it is never destroyed either. -/
theorem c2_runner_update :
    (∀ (s : RunnerScene.SceneState) (delta : ℚ), 0 ≤ delta → s.gameActive = true →
      C2Prop s delta) ∧
    (∀ (s : RunnerScene.SceneState) (delta : ℚ), s.gameActive = false →
      RunnerScene.update s delta = s) ∧
    ((fun st => RunnerScene.update st 1000)^[24] RunnerScene.initState).score = 240 ∧
    ((fun st => RunnerScene.update st 1000)^[24] RunnerScene.initState).level = 1 ∧
    ((fun st => RunnerScene.update st 1000)^[25] RunnerScene.initState).score = 250 ∧
    ((fun st => RunnerScene.update st 1000)^[25] RunnerScene.initState).level = 2 ∧
    (∀ delta : ℚ,
      RunnerScene.dustStep delta RunnerScene.spawnedLife = some RunnerScene.spawnedLife) ∧
    (∀ delta : ℚ,
      RunnerScene.fireStep delta RunnerScene.spawnedLife = some RunnerScene.JSNum.nan) ∧
    (∀ delta : ℚ,
      RunnerScene.fireStep delta RunnerScene.JSNum.nan = some RunnerScene.JSNum.nan) ∧
    (RunnerScene.update RunnerScene.particleState 1000).particles =
      [RunnerScene.JSNum.undef] ∧
    (RunnerScene.update RunnerScene.particleState 1000).fires = [RunnerScene.JSNum.nan] := by
  refine ⟨?_, update_frozen, ?_, ?_, ?_, ?_, ?_, ?_, ?_, ?_, ?_⟩
  · intro s delta _hd hact
    unfold C2Prop
    simp [RunnerScene.update, hact]
  · rw [(update_ticks 24).1]
    norm_num
  · rw [(update_ticks 24).2.2]
    norm_num
  · rw [(update_ticks 25).1]
    norm_num
  · rw [(update_ticks 25).2.2]
    norm_num
  · intro delta
    rfl
  · intro delta
    rfl
  · intro delta
    rfl
  · simp [RunnerScene.update, RunnerScene.particleState, RunnerScene.initState,
      RunnerScene.spawnedLife, RunnerScene.dustStep]
  · simp [RunnerScene.update, RunnerScene.particleState, RunnerScene.initState,
      RunnerScene.spawnedLife, RunnerScene.fireStep]

/-- Witness for C2: one active 1000 ms tick from the initial scene. -/
theorem c2_runner_update_witness :
    ((0 : ℚ) ≤ 1000 ∧ RunnerScene.initState.gameActive = true) ∧
    C2Prop RunnerScene.initState 1000 :=
  ⟨⟨by norm_num, rfl⟩, c2_runner_update.1 RunnerScene.initState 1000 (by norm_num) rfl⟩

/-- Claim C3: a player-dragon overlap is inert unless the player moves
downward (Phaser y velocity positive); a valid stomp removes exactly
one health point; a lethal stomp destroys the dragon and adds exactly
50 once, with multiple dust bursts; a non-lethal stomp knocks the
dragon 30 left with a single dust burst and no score change; a dragon
at health 3 dies on the third stomp with total bonus 50, not 100. -/
theorem c3_dragon_stomp :
    (∀ (vy : ℚ) (d : RunnerScene.Dragon), vy ≤ 0 →
      RunnerScene.damageDragon vy d = ⟨some d, 0, 0⟩) ∧
    (∀ (vy : ℚ) (d : RunnerScene.Dragon), 0 < vy → 2 ≤ d.health →
      RunnerScene.damageDragon vy d = ⟨some ⟨d.x - 30, d.health - 1⟩, 0, 1⟩) ∧
    (∀ (vy : ℚ) (d : RunnerScene.Dragon), 0 < vy → d.health = 1 →
      RunnerScene.damageDragon vy d = ⟨none, 50, 4⟩) ∧
    (RunnerScene.damageDragon 1 ⟨0, 3⟩ = ⟨some ⟨-30, 2⟩, 0, 1⟩ ∧
     RunnerScene.damageDragon 1 ⟨-30, 2⟩ = ⟨some ⟨-60, 1⟩, 0, 1⟩ ∧
     RunnerScene.damageDragon 1 ⟨-60, 1⟩ = ⟨none, 50, 4⟩ ∧
     (0 : ℚ) + 0 + 50 = 50) := by
  refine ⟨?_, ?_, ?_, ?_, ?_, ?_, ?_⟩
  · intro vy d h
    simp [RunnerScene.damageDragon, h]
  · intro vy d hvy hh
    have h0 : ¬ vy ≤ 0 := not_le.mpr hvy
    have h1 : d.health ≠ 0 := by omega
    have h2 : ¬ (d.health - 1 = 0) := by omega
    simp [RunnerScene.damageDragon, h0, h1, h2]
  · intro vy d hvy hh
    have h0 : ¬ vy ≤ 0 := not_le.mpr hvy
    simp [RunnerScene.damageDragon, h0, hh]
  · norm_num [RunnerScene.damageDragon]
  · norm_num [RunnerScene.damageDragon]
  · norm_num [RunnerScene.damageDragon]
  · norm_num

/-- Witness for C3: a downward stomp on a dragon with two health. -/
theorem c3_dragon_stomp_witness :
    ((0 : ℚ) < 1 ∧ 2 ≤ (RunnerScene.Dragon.mk 5 2).health) ∧
    RunnerScene.damageDragon 1 ⟨5, 2⟩ = ⟨some ⟨5 - 30, 2 - 1⟩, 0, 1⟩ :=
  ⟨⟨by norm_num, by norm_num⟩, c3_dragon_stomp.2.1 1 ⟨5, 2⟩ (by norm_num) (by norm_num)⟩

/-- Claim C7, evaluated at its failing input: `gameOver` does set
`gameActive` to false and cancel the spawn timer, and the restart
(`scene.restart`, which re-runs `create` on the same instance) does
rebuild the entity groups and the spawn timer; but `gameActive`
remains false and the score remains 120 after restart, because
`create` never assigns the class fields `score`, `level`,
`gameActive` or `dragonSpawnTimer`, whose initializers (their initial
values being 0, 1, true and unset) run only at construction. -/
theorem c7_restart_keeps_fields :
    RunnerScene.overState.gameActive = false ∧
    RunnerScene.overState.spawnTimerOn = false ∧
    (RunnerScene.restart RunnerScene.overState).obstacles = [] ∧
    (RunnerScene.restart RunnerScene.overState).particles = [] ∧
    (RunnerScene.restart RunnerScene.overState).spawnTimerOn = true ∧
    (RunnerScene.restart RunnerScene.overState).gameActive = false ∧
    (RunnerScene.restart RunnerScene.overState).score = 120 ∧
    RunnerScene.initState.gameActive = true ∧
    RunnerScene.initState.score = 0 := by
  refine ⟨rfl, rfl, rfl, rfl, rfl, rfl, rfl, rfl, rfl⟩

/-- Counterexample for C8: a stored value that is a corrupt,
non-numeric string is read as `NaN` (modelled `none`), not as zero:
`parseInt("abc" || "0")` is `parseInt("abc")`, which is `NaN`. -/
theorem c8_corrupt_counterexample :
    RunnerScene.readHighscore (some ("abc")) = none ∧ (none : Option ℤ) ≠ some 0 := by
  decide

/-- Claim C8 (amended): a missing key or an empty stored string reads
as zero and reads never throw (the read is a total function); when the
stored value parses to an integer, the store after the game-over
persistence parses to the maximum of the current score and the stored
highscore; but a corrupt non-numeric stored value reads as `NaN`
(`none`), in which case the `currentScore > highscore` comparison is
false and the store is left unchanged. -/
theorem c8_highscore :
    RunnerScene.readHighscore none = some 0 ∧
    RunnerScene.readHighscore (some ("")) = some 0 ∧
    (∀ (current : ℕ) (store : Option String) (h : ℤ),
      RunnerScene.readHighscore store = some h →
      RunnerScene.readHighscore (RunnerScene.persistHighscore current store) =
        some (max (current : ℤ) h)) ∧
    (∀ (current : ℕ) (store : Option String),
      RunnerScene.readHighscore store = none →
      RunnerScene.persistHighscore current store = store) := by
  refine ⟨by decide, by decide, ?_, ?_⟩
  · intro current store h hread
    unfold RunnerScene.persistHighscore
    rw [hread]
    show RunnerScene.readHighscore
        (if (current : ℤ) > h then some (RunnerScene.natToStr current) else store) =
      some (max (current : ℤ) h)
    by_cases hgt : (current : ℤ) > h
    · rw [if_pos hgt]
      have hns : RunnerScene.natToStr current ≠ "" := by
        intro he
        exact natToChars_ne_nil current (congrArg String.data he)
      unfold RunnerScene.readHighscore RunnerScene.lsGet
      show RunnerScene.jsParseInt
          (if RunnerScene.natToStr current = "" then "0" else RunnerScene.natToStr current) =
        some (max (current : ℤ) h)
      rw [if_neg hns, jsParseInt_natToStr, max_eq_left (le_of_lt hgt)]
    · rw [if_neg hgt, hread, max_eq_right (not_lt.mp hgt)]
  · intro current store hread
    unfold RunnerScene.persistHighscore
    rw [hread]

/-- Witness for C8: persisting score 5 over a stored "3". -/
theorem c8_highscore_witness :
    RunnerScene.readHighscore (some ("3")) = some 3 ∧
    RunnerScene.readHighscore (RunnerScene.persistHighscore 5 (some ("3"))) =
      some (max (5 : ℤ) 3) :=
  ⟨by decide, c8_highscore.2.2.1 5 (some ("3")) 3 (by decide)⟩

/-- The max-speed cap rescales the velocity uniformly by a positive
factor of at most one, and the resulting speed never exceeds 14. -/
lemma clampVel_spec (v : ℝ × ℝ) :
    (∃ c : ℝ, 0 < c ∧ c ≤ 1 ∧ (clampVel v).1 = c * v.1 ∧ (clampVel v).2 = c * v.2) ∧
    speedOf (clampVel v).1 (clampVel v).2 ≤ 14 := by
  unfold clampVel
  by_cases hs : 14 < speedOf v.1 v.2
  · rw [if_pos hs]
    have hpos : 0 < speedOf v.1 v.2 := lt_trans (by norm_num) hs
    have hne : speedOf v.1 v.2 ≠ 0 := ne_of_gt hpos
    have hS0 : 0 ≤ v.1 * v.1 + v.2 * v.2 :=
      add_nonneg (mul_self_nonneg v.1) (mul_self_nonneg v.2)
    have hsq : speedOf v.1 v.2 * speedOf v.1 v.2 = v.1 * v.1 + v.2 * v.2 :=
      Real.mul_self_sqrt hS0
    constructor
    · refine ⟨14 / speedOf v.1 v.2, by positivity, ?_, by ring, by ring⟩
      exact (div_le_one hpos).mpr (le_of_lt hs)
    · have hSne : v.1 * v.1 + v.2 * v.2 ≠ 0 := by
        rw [← hsq]
        exact mul_ne_zero hne hne
      have harg : v.1 / Real.sqrt (v.1 * v.1 + v.2 * v.2) * 14 *
            (v.1 / Real.sqrt (v.1 * v.1 + v.2 * v.2) * 14) +
          v.2 / Real.sqrt (v.1 * v.1 + v.2 * v.2) * 14 *
            (v.2 / Real.sqrt (v.1 * v.1 + v.2 * v.2) * 14) = 196 := by
        have hexp : v.1 / Real.sqrt (v.1 * v.1 + v.2 * v.2) * 14 *
              (v.1 / Real.sqrt (v.1 * v.1 + v.2 * v.2) * 14) +
            v.2 / Real.sqrt (v.1 * v.1 + v.2 * v.2) * 14 *
              (v.2 / Real.sqrt (v.1 * v.1 + v.2 * v.2) * 14) =
              (v.1 * v.1 + v.2 * v.2) * 196 /
                (Real.sqrt (v.1 * v.1 + v.2 * v.2) * Real.sqrt (v.1 * v.1 + v.2 * v.2)) := by
          ring
        rw [hexp, Real.mul_self_sqrt hS0, mul_comm, mul_div_assoc, div_self hSne, mul_one]
      dsimp only
      unfold speedOf
      rw [harg, show (196 : ℝ) = 14 * 14 by norm_num,
        Real.sqrt_mul_self (by norm_num : (0 : ℝ) ≤ 14)]
  · rw [if_neg hs]
    exact ⟨⟨1, by norm_num, le_refl 1, by ring, by ring⟩, not_lt.mp hs⟩

/-- The resting spawn car does not move on a tick without input. -/
lemma nextXZ_spawn : nextXZ spawnCar noKeys 0 = (0, 18) := by
  unfold nextXZ clampVel velWork angleAfter speedOf spawnCar noKeys steerInput
  norm_num [Real.sqrt_zero]

/-- Claim C9: on a kinematic tick with nonnegative elapsed time whose
integrated next position stays within the barrier, with d the delta
capped at 50 ms: steering changes the heading only above scalar speed
0.2, at rate min(speed * 0.4, 1.4) * d; accelerating adds 18 * d along
the (post-steer) heading, braking scales the velocity by
max(0, 1 - 12 * d), coasting by max(0, 1 - 3 * d); the resulting
velocity is a uniform positive rescaling of that with magnitude at
most 14; and the position advances by the final velocity times d. -/
theorem c9_kinematic_physics (s : CarState) (k : Keys) (delta : ℝ)
    (_hd : 0 ≤ delta) (hbar : |(nextXZ s k delta).1| ≤ 4.5) : C9Prop s k delta := by
  have hno : ¬ (4.5 < |(nextXZ s k delta).1|) := not_lt.mpr hbar
  have hcar : carFrame s k delta =
      ⟨(nextXZ s k delta).1, (nextXZ s k delta).2,
       (clampVel (velWork s k (min delta 0.05))).1,
       (clampVel (velWork s k (min delta 0.05))).2,
       angleAfter s k (min delta 0.05), angleAfter s k (min delta 0.05)⟩ := by
    unfold carFrame
    rw [if_neg hno]
  unfold C9Prop
  rw [hcar]
  dsimp only
  obtain ⟨⟨c, hc0, hc1, hcx, hcz⟩, hcap⟩ := clampVel_spec (velWork s k (min delta 0.05))
  refine ⟨?_, ?_, ?_, ?_, ?_, ⟨c, hc0, hc1, hcx, hcz⟩, hcap, ?_, ?_⟩
  · intro hsp
    unfold angleAfter
    rw [if_neg (not_lt.mpr hsp)]
  · intro hsp
    unfold angleAfter
    rw [if_pos hsp]
  · intro hup
    unfold velWork
    rw [if_pos hup]
  · intro hup hdown
    unfold velWork
    rw [if_neg (by simp [hup]), if_pos hdown]
  · intro hup hdown
    unfold velWork
    rw [if_neg (by simp [hup]), if_neg (by simp [hdown])]
  · rfl
  · rfl

/-- Witness for C9: a resting spawn car on a 0 ms coasting tick. -/
theorem c9_kinematic_physics_witness :
    ((0 : ℝ) ≤ 0 ∧ |(nextXZ spawnCar noKeys 0).1| ≤ 4.5) ∧ C9Prop spawnCar noKeys 0 :=
  ⟨⟨le_refl 0, by rw [nextXZ_spawn]; norm_num⟩,
   c9_kinematic_physics spawnCar noKeys 0 (le_refl 0) (by rw [nextXZ_spawn]; norm_num)⟩

/-- Claim C10: the kinematic car's x coordinate never leaves
[-4.5, 4.5]: a tick whose integrated next x would cross the bound
leaves the position entirely unchanged and zeroes both velocity
components, a tick preserves the bound, and every frame sequence from
the spawn pose keeps the bound. -/
theorem c10_barrier_invariant :
    (∀ (s : CarState) (k : Keys) (delta : ℝ), |s.x| ≤ 4.5 → |(carFrame s k delta).x| ≤ 4.5) ∧
    (∀ (s : CarState) (k : Keys) (delta : ℝ), 4.5 < |(nextXZ s k delta).1| →
      carFrame s k delta =
        { s with vx := 0, vz := 0, angle := angleAfter s k (min delta 0.05) }) ∧
    (∀ l : List (Keys × ℝ), |(runFrames spawnCar l).x| ≤ 4.5) := by
  have hstep : ∀ (s : CarState) (k : Keys) (delta : ℝ),
      |s.x| ≤ 4.5 → |(carFrame s k delta).x| ≤ 4.5 := by
    intro s k delta hx
    unfold carFrame
    by_cases hb : 4.5 < |(nextXZ s k delta).1|
    · rw [if_pos hb]
      exact hx
    · rw [if_neg hb]
      exact not_lt.mp hb
  refine ⟨hstep, ?_, ?_⟩
  · intro s k delta hb
    unfold carFrame
    rw [if_pos hb]
  · have haux : ∀ (l : List (Keys × ℝ)) (s : CarState),
        |s.x| ≤ 4.5 → |(runFrames s l).x| ≤ 4.5 := by
      intro l
      induction l with
      | nil => intro s hs; exact hs
      | cons p t ih =>
          intro s hs
          show |(runFrames (carFrame s p.1 p.2) t).x| ≤ 4.5
          exact ih _ (hstep s p.1 p.2 hs)
    intro l
    exact haux l spawnCar (by norm_num [spawnCar])

/-- Witness for C10: one tick from the spawn pose. -/
theorem c10_barrier_invariant_witness :
    |spawnCar.x| ≤ 4.5 ∧ |(carFrame spawnCar noKeys 0).x| ≤ 4.5 :=
  ⟨by norm_num [spawnCar], c10_barrier_invariant.1 spawnCar noKeys 0 (by norm_num [spawnCar])⟩

/-- Claim C6, evaluated at its failing input: the kinematic `reset`
restores status, crossed-flag and spawn pose, but leaves the car's
velocity `(5, -3)` and heading `1` untouched, because the guard
`if (el?.__physics)` reads a property that is never assigned; the
rigid-body `reset` does zero both velocities as claimed. -/
theorem c6_reset_keeps_kinematic_velocity :
    (resetKin ⟨Light.red, Status.failed, 3, true, false⟩ ⟨2, -1, 5, -3, 1, 1⟩).1 =
      ⟨Light.red, Status.playing, 3, false, false⟩ ∧
    (resetKin ⟨Light.red, Status.failed, 3, true, false⟩ ⟨2, -1, 5, -3, 1, 1⟩).2 =
      ⟨0, 18, 5, -3, 1, 0⟩ ∧
    (5 : ℝ) ≠ 0 ∧
    (resetRigid ⟨Light.red, Status.failed, 3, true, false⟩ ⟨2, 1, -1, 5, 0, -3, 0, 1, 0⟩).1 =
      ⟨Light.red, Status.playing, 3, false, false⟩ ∧
    (resetRigid ⟨Light.red, Status.failed, 3, true, false⟩ ⟨2, 1, -1, 5, 0, -3, 0, 1, 0⟩).2 =
      ⟨0, 2/5, 18, 0, 0, 0, 0, 0, 0⟩ := by
  refine ⟨rfl, rfl, by norm_num, rfl, rfl⟩
